import Mathlib

/-!
Verification of the fastauth token-embedded authorization engine.

Shallow embedding of `src/fastauth/core/security.py`, `src/fastauth/core/deps.py`,
`src/fastauth/crud/user.py` (authenticate_user) and `src/fastauth/api/auth.py`
(login / refresh / create_user_tokens).

Modelling conventions:
* Timestamps and time deltas are integer seconds.  `datetime.utcnow()` is an
  explicit `now : Int` parameter.
* A JWT is a `Token`: its claim dictionary (`Payload`) plus the signing key.
  `jwt.decode(tok, secret)` succeeds iff the token's key equals `secret`
  (signature check) and the token is not expired (python-jose raises
  `ExpiredSignatureError` when `exp < now`); any failure is a caught
  `JWTError`, i.e. `none`.
* Optional claim-dict keys are `Option` fields: `none` means the key is absent.
* Python truthiness is modelled explicitly: `if expires_delta:` is false for
  both `None` and `timedelta(0)`; `if roles:` is false for both `None` and `[]`.
* The external stores (user lookup, role/permission resolution) and the bcrypt
  password hasher are pure function parameters, per their narrow contracts.
* `int(s)` on a string is the executable decimal parser `pyInt`; a `none`
  result corresponds to the uncaught Python `ValueError`, surfaced as the
  `PyOutcome.valueError` case.
-/

namespace FastAuth

/-- User lifecycle status (`UserStatus` in models/user.py). -/
inductive UserStatus where
  | active
  | inactive
  | suspended
deriving DecidableEq, Repr

/-- A permission entry as serialized into tokens: the
`\x7b"resource": ..., "action": ...\x7d` dict built in create_user_tokens. -/
structure PermissionEntry where
  resource : String
  action : String
deriving DecidableEq, Repr

/-- A role row as returned by get_user_roles (crud/rbac.py): only the name is
read by create_user_tokens. -/
structure Role where
  id : Int
  name : String
deriving DecidableEq, Repr

/-- A permission row as returned by get_user_permissions (crud/rbac.py): only
resource and action are read by create_user_tokens. -/
structure Permission where
  id : Int
  name : String
  resource : String
  action : String
deriving DecidableEq, Repr

/-- The fields of a User row (models/user.py) read by the authorization core. -/
structure User where
  id : Int
  email : String
  is_active : Bool
  is_superuser : Bool
  status : UserStatus
  hashed_password : String
deriving DecidableEq, Repr

/-- The Settings fields used by the token code (core/config.py). -/
structure Settings where
  secret_key : String
  access_token_expire_minutes : Int
  refresh_token_expire_days : Int
deriving DecidableEq, Repr

/-- A decoded JWT claim dictionary as built by create_access_token /
create_refresh_token: `sub`, `email`, `is_superuser` from create_token_data,
optional `roles` / `permissions` lists, plus `exp` and `type`. -/
structure Payload where
  sub : Option String
  email : String
  is_superuser : Bool
  roles : Option (List String)
  permissions : Option (List PermissionEntry)
  exp : Int
  type : String
deriving DecidableEq, Repr

/-- A signed token: `jwt.encode(payload, key)`.  Signature verification
succeeds iff the verifying secret equals the signing key. -/
structure Token where
  payload : Payload
  key : String
deriving DecidableEq, Repr

/-- Base token data dictionary from create_token_data (core/security.py):
`sub` is `str(user_id)`. -/
structure TokenData where
  sub : String
  email : String
  is_superuser : Bool
deriving DecidableEq, Repr

/-- create_token_data (core/security.py lines 58-66). -/
def create_token_data (user_id : Int) (email : String) (is_superuser : Bool) :
    TokenData :=
  ⟨toString user_id, email, is_superuser⟩

/-- Python truthiness of an optional list: `None` and `[]` are both falsy. -/
def truthyList {α : Type} (l : Option (List α)) : Bool :=
  match l with
  | none => false
  | some xs => !xs.isEmpty

/-- create_access_token (core/security.py lines 12-34).  `if expires_delta:`
is Python truthiness, so a zero timedelta falls into the default-expiry
branch; `if roles:` / `if permissions:` add the claim key only for a
non-empty list. -/
def create_access_token (data : TokenData) (roles : Option (List String))
    (permissions : Option (List PermissionEntry)) (expires_delta : Option Int)
    (settings : Settings) (now : Int) : Token :=
  let expire : Int :=
    match expires_delta with
    | some d =>
        if d ≠ 0 then now + d
        else now + settings.access_token_expire_minutes * 60
    | none => now + settings.access_token_expire_minutes * 60
  let rolesClaim := if truthyList roles then roles else none
  let permsClaim := if truthyList permissions then permissions else none
  ⟨⟨some data.sub, data.email, data.is_superuser, rolesClaim, permsClaim,
    expire, "access"⟩, settings.secret_key⟩

/-- create_refresh_token (core/security.py lines 37-42): encodes exactly the
base data plus `exp` and `type = "refresh"`; it has no roles/permissions
parameters at all. -/
def create_refresh_token (data : TokenData) (settings : Settings) (now : Int) :
    Token :=
  ⟨⟨some data.sub, data.email, data.is_superuser, none, none,
    now + settings.refresh_token_expire_days * 86400, "refresh"⟩,
   settings.secret_key⟩

/-- verify_token (core/security.py lines 45-55): jwt.decode checks signature
and expiry (JWTError → None), then the `type` claim is compared. -/
def verify_token (token : Token) (secret : String) (now : Int)
    (token_type : String) : Option Payload :=
  if token.key ≠ secret then none
  else if token.payload.exp < now then none
  else if token.payload.type ≠ token_type then none
  else some token.payload

/-- extract_user_roles (core/security.py lines 69-71):
`token_payload.get("roles", [])`. -/
def extract_user_roles (token_payload : Payload) : List String :=
  token_payload.roles.getD []

/-- extract_user_permissions (core/security.py lines 74-76):
`token_payload.get("permissions", [])`. -/
def extract_user_permissions (token_payload : Payload) : List PermissionEntry :=
  token_payload.permissions.getD []

/-- user_has_permission_in_token (core/security.py lines 79-93): superuser
short-circuit, then a scan of the token's permission entries. -/
def user_has_permission_in_token (token_payload : Payload)
    (resource action : String) : Bool :=
  if token_payload.is_superuser then true
  else
    (extract_user_permissions token_payload).any
      (fun perm => perm.resource == resource && perm.action == action)

/-- An HTTPException as raised by the dependency layer: status code + detail. -/
structure HttpError where
  status_code : Nat
  detail : String
deriving DecidableEq, Repr

/-- TokenUser (core/deps.py lines 19-49): the DB user plus the decoded token
payload; `current_user.id` is the DB user's id. -/
structure TokenUser where
  user : User
  token_payload : Payload
deriving DecidableEq, Repr

/-- Detail string of the single-permission Forbidden error:
`Not enough permissions - \x7baction\x7d \x7bresource\x7d required`. -/
def permissionDetail (resource action : String) : String :=
  "Not enough permissions - " ++ action ++ " " ++ resource ++ " required"

/-- The 403 raised by require_permission / require_all_permissions /
require_self_or_permission. -/
def forbiddenPermission (resource action : String) : HttpError :=
  ⟨403, permissionDetail resource action⟩

/-- Detail string of the any-of Forbidden error (deps.py lines 140-143). -/
def anyPermissionDetail (permissions : List (String × String)) : String :=
  "Not enough permissions - one of [" ++
    String.intercalate ", "
      (permissions.map (fun p => p.2 ++ " " ++ p.1)) ++ "] required"

/-- The 403 raised by require_any_permission when no pair matches. -/
def forbiddenAnyPermission (permissions : List (String × String)) : HttpError :=
  ⟨403, anyPermissionDetail permissions⟩

/-- The checker returned by require_permission (deps.py lines 111-126),
applied to an authenticated TokenUser. -/
def require_permission (resource action : String) (current_user : TokenUser) :
    Except HttpError TokenUser :=
  if !(user_has_permission_in_token current_user.token_payload resource action)
  then Except.error (forbiddenPermission resource action)
  else Except.ok current_user

/-- The `for resource, action in permissions:` loop of require_any_permission:
returns the user at the first matching pair. -/
def anyPermissionLoop (current_user : TokenUser) :
    List (String × String) → Option TokenUser
  | [] => none
  | (resource, action) :: rest =>
    if user_has_permission_in_token current_user.token_payload resource action
    then some current_user
    else anyPermissionLoop current_user rest

/-- The checker returned by require_any_permission (deps.py lines 129-146):
if the loop finds no matching pair (in particular when the list is empty),
the 403 is raised. -/
def require_any_permission (permissions : List (String × String))
    (current_user : TokenUser) : Except HttpError TokenUser :=
  match anyPermissionLoop current_user permissions with
  | some u => Except.ok u
  | none => Except.error (forbiddenAnyPermission permissions)

/-- The `for resource, action in permissions:` loop of require_all_permissions:
returns the first failing pair's error, if any. -/
def allPermissionLoop (current_user : TokenUser) :
    List (String × String) → Option HttpError
  | [] => none
  | (resource, action) :: rest =>
    if !(user_has_permission_in_token current_user.token_payload resource action)
    then some (forbiddenPermission resource action)
    else allPermissionLoop current_user rest

/-- The checker returned by require_all_permissions (deps.py lines 149-165). -/
def require_all_permissions (permissions : List (String × String))
    (current_user : TokenUser) : Except HttpError TokenUser :=
  match allPermissionLoop current_user permissions with
  | some e => Except.error e
  | none => Except.ok current_user

/-- The checker returned by require_self_or_permission (deps.py lines
206-226): own id first, then the single-permission check. -/
def require_self_or_permission (resource action : String)
    (target_user_id : Int) (current_user : TokenUser) :
    Except HttpError TokenUser :=
  if current_user.user.id == target_user_id then Except.ok current_user
  else if !(user_has_permission_in_token current_user.token_payload resource
             action)
  then Except.error (forbiddenPermission resource action)
  else Except.ok current_user

/-- The external stores behind one DB session: user lookup (crud/user.py) and
RBAC resolution (crud/rbac.py get_user_roles / get_user_permissions, which
already filter to active roles and deduplicate). -/
structure Store where
  findByEmail : String → Option User
  findById : Int → Option User
  rolesFor : Int → List Role
  permsFor : Int → List Permission

/-- authenticate_user (crud/user.py lines 172-183): every failure — unknown
email, inactive flag, non-active status, wrong password — is the same `None`.
`hasher plain hash` is `verify_password(plain, hash)` (external bcrypt). -/
def authenticate_user (store : Store) (hasher : String → String → Bool)
    (email password : String) : Option User :=
  match store.findByEmail email with
  | none => none
  | some user =>
    if user.is_active = false then none
    else if user.status ≠ UserStatus.active then none
    else if hasher password user.hashed_password = false then none
    else some user

/-- The Token response model (models/user.py): access + refresh pair. -/
structure TokenPair where
  access_token : Token
  refresh_token : Token
deriving DecidableEq, Repr

/-- create_user_tokens (api/auth.py lines 26-45): resolves roles and
permissions fresh from the store, builds the base data, and issues the pair.
The access token always gets `roles=role_names, permissions=permission_data`
and no explicit expires_delta. -/
def create_user_tokens (store : Store) (user : User) (settings : Settings)
    (now : Int) : TokenPair :=
  let user_roles := store.rolesFor user.id
  let user_permissions := store.permsFor user.id
  let token_data := create_token_data user.id user.email user.is_superuser
  let role_names := user_roles.map Role.name
  let permission_data :=
    user_permissions.map (fun perm => PermissionEntry.mk perm.resource perm.action)
  ⟨create_access_token token_data (some role_names) (some permission_data)
     none settings now,
   create_refresh_token token_data settings now⟩

/-- The single 401 of the login endpoint (api/auth.py lines 73-78). -/
def invalidCredentialsError : HttpError := ⟨401, "Incorrect email or password"⟩

/-- The login endpoint (api/auth.py lines 66-80). -/
def login (store : Store) (hasher : String → String → Bool)
    (settings : Settings) (now : Int) (email password : String) :
    Except HttpError TokenPair :=
  match authenticate_user store hasher email password with
  | none => Except.error invalidCredentialsError
  | some user => Except.ok (create_user_tokens store user settings now)

/-- Outcome of a request handler: a returned value, a raised HTTPException,
or an uncaught Python exception (the ValueError from `int(user_id)`). -/
inductive PyOutcome (α : Type) where
  | ok (a : α)
  | httpError (e : HttpError)
  | valueError (s : String)
deriving DecidableEq, Repr

/-- A non-empty all-digit character list read as a decimal number. -/
def digitsToNat (ds : List Char) : Option Nat :=
  if ds = [] then none
  else if ds.all Char.isDigit then
    some (ds.foldl (fun acc c => acc * 10 + (c.toNat - 48)) 0)
  else none

/-- Python `int(s)` on a string: an optional sign followed by at least one
decimal digit parses; anything else raises ValueError, modelled as `none`. -/
def pyInt (s : String) : Option Int :=
  match s.toList with
  | '-' :: rest => (digitsToNat rest).map (fun n => -(n : Int))
  | l => (digitsToNat l).map (fun n => (n : Int))

/-- deps.py lines 60-73: `Could not validate credentials`. -/
def credentialsError : HttpError := ⟨401, "Could not validate credentials"⟩

/-- deps.py lines 76-81: `User not found`. -/
def userNotFoundError : HttpError := ⟨401, "User not found"⟩

/-- deps.py lines 83-87: the 400 for an inactive or suspended account. -/
def inactiveAccountError : HttpError :=
  ⟨400, "User account is inactive or suspended"⟩

/-- get_current_user (core/deps.py lines 52-89).  `int(user_id)` is `pyInt`;
a non-numeric `sub` escapes as an uncaught ValueError. -/
def get_current_user (store : Store) (settings : Settings) (now : Int)
    (token : Token) : PyOutcome TokenUser :=
  match verify_token token settings.secret_key now "access" with
  | none => PyOutcome.httpError credentialsError
  | some payload =>
    match payload.sub with
    | none => PyOutcome.httpError credentialsError
    | some user_id =>
      match pyInt user_id with
      | none => PyOutcome.valueError user_id
      | some uid =>
        match store.findById uid with
        | none => PyOutcome.httpError userNotFoundError
        | some user =>
          if user.is_active = false ∨ user.status ≠ UserStatus.active then
            PyOutcome.httpError inactiveAccountError
          else PyOutcome.ok ⟨user, payload⟩

/-- api/auth.py lines 90-95: `Invalid refresh token`. -/
def invalidRefreshError : HttpError := ⟨401, "Invalid refresh token"⟩

/-- api/auth.py lines 109-114: `User not found or inactive`. -/
def userNotFoundInactiveError : HttpError := ⟨401, "User not found or inactive"⟩

/-- The refresh endpoint (api/auth.py lines 83-117): decode with expected
kind refresh, re-fetch the user (`if not user or not user.is_active`; note no
status check here), then mint a fresh pair via create_user_tokens. -/
def refresh_token (store : Store) (settings : Settings) (now : Int)
    (tok : Token) : PyOutcome TokenPair :=
  match verify_token tok settings.secret_key now "refresh" with
  | none => PyOutcome.httpError invalidRefreshError
  | some payload =>
    match payload.sub with
    | none => PyOutcome.httpError invalidRefreshError
    | some user_id =>
      match pyInt user_id with
      | none => PyOutcome.valueError user_id
      | some uid =>
        match store.findById uid with
        | none => PyOutcome.httpError userNotFoundInactiveError
        | some user =>
          if user.is_active = false then
            PyOutcome.httpError userNotFoundInactiveError
          else PyOutcome.ok (create_user_tokens store user settings now)

/-! ## Helper lemmas shared by several results -/

/-- The roles claim written by create_access_token round-trips through
`get("roles", [])`: a non-empty list is stored, the empty list is omitted and
read back as `[]`. -/
theorem extract_roles_of_create_access (data : TokenData) (rs : List String)
    (ps : Option (List PermissionEntry)) (ed : Option Int)
    (settings : Settings) (now : Int) :
    extract_user_roles
      (create_access_token data (some rs) ps ed settings now).payload = rs := by
  cases rs <;>
    simp [create_access_token, extract_user_roles, truthyList]

/-- The permissions claim written by create_access_token round-trips through
`get("permissions", [])`. -/
theorem extract_perms_of_create_access (data : TokenData)
    (rs : Option (List String)) (ps : List PermissionEntry) (ed : Option Int)
    (settings : Settings) (now : Int) :
    extract_user_permissions
      (create_access_token data rs (some ps) ed settings now).payload = ps := by
  cases ps <;>
    simp [create_access_token, extract_user_permissions, truthyList]

/-- The access token minted by create_access_token carries type "access" and
the base data's subject. -/
theorem create_access_token_fields (data : TokenData)
    (rs : Option (List String)) (ps : Option (List PermissionEntry))
    (ed : Option Int) (settings : Settings) (now : Int) :
    (create_access_token data rs ps ed settings now).payload.type = "access" ∧
    (create_access_token data rs ps ed settings now).payload.sub
        = some data.sub ∧
    (create_access_token data rs ps ed settings now).key
        = settings.secret_key := by
  refine ⟨rfl, rfl, rfl⟩

/-! ## C4: kind isolation -/

/-- C4: decoding any token with a mismatched expected kind fails
unconditionally: verify_token on a refresh token with expected type "access"
returns `none`, and on an access token with expected type "refresh" likewise,
for every verifying secret (so independent of signature validity) and every
decode time (so independent of expiry). -/
theorem kind_isolation (data : TokenData) (roles : Option (List String))
    (permissions : Option (List PermissionEntry)) (expires_delta : Option Int)
    (settings : Settings) (now : Int) (secret : String) (now' : Int) :
    verify_token (create_refresh_token data settings now) secret now' "access"
        = none ∧
    verify_token
        (create_access_token data roles permissions expires_delta settings now)
        secret now' "refresh" = none := by
  constructor <;>
    · simp only [verify_token, create_refresh_token, create_access_token]
      split
      · rfl
      · split
        · rfl
        · simp

/-! ## C5: round trip -/

/-- C5: for every subject id and snapshot (role names and permission pairs),
decoding with expected kind "access" and the issuing secret, at any time not
past the token's `exp`, a token produced by create_access_token yields a
payload whose `sub` is the subject (as a string) and whose extracted roles
and permissions equal the snapshot's. -/
theorem access_token_round_trip (user_id : Int) (email : String)
    (is_superuser : Bool) (roles : List String)
    (permissions : List PermissionEntry) (expires_delta : Option Int)
    (settings : Settings) (now now' : Int)
    (h : now' ≤ (create_access_token (create_token_data user_id email is_superuser)
          (some roles) (some permissions) expires_delta settings now).payload.exp) :
    verify_token
        (create_access_token (create_token_data user_id email is_superuser)
          (some roles) (some permissions) expires_delta settings now)
        settings.secret_key now' "access"
      = some (create_access_token (create_token_data user_id email is_superuser)
          (some roles) (some permissions) expires_delta settings now).payload ∧
    (create_access_token (create_token_data user_id email is_superuser)
        (some roles) (some permissions) expires_delta settings now).payload.sub
      = some (toString user_id) ∧
    extract_user_roles
        (create_access_token (create_token_data user_id email is_superuser)
          (some roles) (some permissions) expires_delta settings now).payload
      = roles ∧
    extract_user_permissions
        (create_access_token (create_token_data user_id email is_superuser)
          (some roles) (some permissions) expires_delta settings now).payload
      = permissions := by
  refine ⟨?_, rfl, extract_roles_of_create_access _ _ _ _ _ _,
    extract_perms_of_create_access _ _ _ _ _ _⟩
  have hkey : (create_access_token (create_token_data user_id email is_superuser)
      (some roles) (some permissions) expires_delta settings now).key
      = settings.secret_key := rfl
  have htype : (create_access_token (create_token_data user_id email is_superuser)
      (some roles) (some permissions) expires_delta settings now).payload.type
      = "access" := rfl
  simp only [verify_token, hkey, htype]
  simp [not_lt.mpr h]

/-- Witness for C5 at a concrete subject and snapshot. -/
theorem access_token_round_trip_witness :
    verify_token
        (create_access_token (create_token_data 7 "a@b.c" false)
          (some ["editor"]) (some [⟨"doc", "write"⟩]) (some 600)
          ⟨"k", 30, 7⟩ 1000)
        "k" 1500 "access"
      = some (create_access_token (create_token_data 7 "a@b.c" false)
          (some ["editor"]) (some [⟨"doc", "write"⟩]) (some 600)
          ⟨"k", 30, 7⟩ 1000).payload ∧
    (create_access_token (create_token_data 7 "a@b.c" false)
        (some ["editor"]) (some [⟨"doc", "write"⟩]) (some 600)
        ⟨"k", 30, 7⟩ 1000).payload.sub = some (toString (7 : Int)) ∧
    extract_user_roles
        (create_access_token (create_token_data 7 "a@b.c" false)
          (some ["editor"]) (some [⟨"doc", "write"⟩]) (some 600)
          ⟨"k", 30, 7⟩ 1000).payload = ["editor"] ∧
    extract_user_permissions
        (create_access_token (create_token_data 7 "a@b.c" false)
          (some ["editor"]) (some [⟨"doc", "write"⟩]) (some 600)
          ⟨"k", 30, 7⟩ 1000).payload = [⟨"doc", "write"⟩] :=
  access_token_round_trip 7 "a@b.c" false ["editor"] [⟨"doc", "write"⟩]
    (some 600) ⟨"k", 30, 7⟩ 1000 1500 (by decide)

/-! ## C1: a zero ttl does not make the token already expired -/

/-- C1 (code evaluated at the failing input): because `if expires_delta:` is
false for a zero timedelta, an access token issued with `expires_delta = 0`
receives the default expiry `now + access_token_expire_minutes * 60`, and
verify_token accepts it immediately after issuance (for any positive
configured expiry), returning the payload — not the error the claim
requires. -/
theorem zero_ttl_token_still_verifies (data : TokenData)
    (roles : Option (List String)) (permissions : Option (List PermissionEntry))
    (settings : Settings) (now : Int)
    (hpos : 0 < settings.access_token_expire_minutes) :
    (create_access_token data roles permissions (some 0) settings now).payload.exp
        = now + settings.access_token_expire_minutes * 60 ∧
    verify_token (create_access_token data roles permissions (some 0) settings now)
        settings.secret_key now "access"
      = some (create_access_token data roles permissions (some 0) settings
          now).payload := by
  constructor
  · rfl
  · have hexp : (create_access_token data roles permissions (some 0) settings
        now).payload.exp = now + settings.access_token_expire_minutes * 60 := rfl
    simp only [verify_token, hexp]
    have hnl : ¬ now + settings.access_token_expire_minutes * 60 < now := by
      have : (0 : Int) < settings.access_token_expire_minutes * 60 := by
        positivity
      omega
    simp [create_access_token, hnl]

/-- Witness for C1 at the repository's default settings
(access_token_expire_minutes = 30). -/
theorem zero_ttl_token_still_verifies_witness :
    (create_access_token ⟨"1", "a@b.c", false⟩ none none (some 0)
        ⟨"k", 30, 7⟩ 0).payload.exp = 0 + 30 * 60 ∧
    verify_token (create_access_token ⟨"1", "a@b.c", false⟩ none none (some 0)
        ⟨"k", 30, 7⟩ 0) "k" 0 "access"
      = some (create_access_token ⟨"1", "a@b.c", false⟩ none none (some 0)
          ⟨"k", 30, 7⟩ 0).payload :=
  zero_ttl_token_still_verifies ⟨"1", "a@b.c", false⟩ none none
    ⟨"k", 30, 7⟩ 0 (by decide)

/-! ## C2: superuser bypass and the empty any-of list -/

/-- A superuser principal whose token carries no permissions at all. -/
def superuserExample : TokenUser :=
  ⟨⟨1, "root@x", true, true, UserStatus.active, "h"⟩,
   ⟨some "1", "root@x", true, none, none, 9999, "access"⟩⟩

/-- C2 counterexample: the claim includes the empty any-of list, but
require_any_permission with the empty list rejects even a superuser principal
with Forbidden — the loop body, where the superuser test lives, never runs. -/
theorem superuser_empty_any_forbidden :
    superuserExample.token_payload.is_superuser = true ∧
    extract_user_permissions superuserExample.token_payload = [] ∧
    require_any_permission [] superuserExample
      = Except.error (forbiddenAnyPermission []) := by
  refine ⟨rfl, rfl, rfl⟩

/-- C2 amended: a superuser principal (even with an empty permissions list)
passes require_permission for every pair, require_any_permission for every
non-empty list, and require_all_permissions for every list including the
empty one; the superuser test is evaluated inside each per-pair check, so
require_any_permission on the empty list rejects even a superuser. -/
theorem superuser_bypass_amended (current_user : TokenUser)
    (hsu : current_user.token_payload.is_superuser = true)
    (resource action : String) (permissions : List (String × String))
    (hne : permissions ≠ []) :
    require_permission resource action current_user = Except.ok current_user ∧
    require_any_permission permissions current_user = Except.ok current_user ∧
    require_all_permissions permissions current_user = Except.ok current_user ∧
    require_all_permissions [] current_user = Except.ok current_user := by
  have hperm : ∀ r a : String,
      user_has_permission_in_token current_user.token_payload r a = true := by
    intro r a
    simp [user_has_permission_in_token, hsu]
  have hall : ∀ l : List (String × String),
      allPermissionLoop current_user l = none := by
    intro l
    induction l with
    | nil => rfl
    | cons p rest ih =>
      obtain ⟨r, a⟩ := p
      simp [allPermissionLoop, hperm, ih]
  refine ⟨?_, ?_, ?_, ?_⟩
  · simp [require_permission, hperm]
  · cases permissions with
    | nil => exact absurd rfl hne
    | cons p rest =>
      obtain ⟨r, a⟩ := p
      simp [require_any_permission, anyPermissionLoop, hperm]
  · simp [require_all_permissions, hall]
  · simp [require_all_permissions, hall]

/-- Witness for the amended C2 at the concrete superuser principal and a
one-element requirement list. -/
theorem superuser_bypass_amended_witness :
    require_permission "doc" "write" superuserExample
        = Except.ok superuserExample ∧
    require_any_permission [("doc", "write")] superuserExample
        = Except.ok superuserExample ∧
    require_all_permissions [("doc", "write")] superuserExample
        = Except.ok superuserExample ∧
    require_all_permissions [] superuserExample
        = Except.ok superuserExample :=
  superuser_bypass_amended superuserExample rfl "doc" "write"
    [("doc", "write")] (by simp)

/-! ## C3: what a refresh token carries -/

/-- A concrete superuser account row. -/
def suUser : User := ⟨1, "root@x", true, true, UserStatus.active, "hash"⟩

/-- A concrete store holding only `suUser`, with no roles or permissions. -/
def suStore : Store :=
  ⟨fun e => if e == "root@x" then some suUser else none,
   fun i => if i == 1 then some suUser else none,
   fun _ => [], fun _ => []⟩

/-- A stand-in password hasher that accepts everything. -/
def suHasher : String → String → Bool := fun _ _ => true

/-- Concrete settings mirroring the repository defaults. -/
def exSettings : Settings := ⟨"k", 30, 7⟩

/-- The token pair login mints for `suUser`. -/
def suPair : TokenPair := create_user_tokens suStore suUser exSettings 0

/-- C3 counterexample: a refresh token issued by login for a superuser
carries `is_superuser = true` — the superuser flag is part of the
authorization snapshot, so the refresh token does carry a part of it. -/
theorem refresh_token_carries_superuser_flag :
    login suStore suHasher exSettings 0 "root@x" "pw" = Except.ok suPair ∧
    suPair.refresh_token.payload.is_superuser = true := by
  refine ⟨rfl, rfl⟩

/-- C3 amended: every refresh token issued by login or refresh carries no
roles claim and no permissions claim; but the base token data (sub, email,
is_superuser) it is built from includes the superuser flag, so that part of
the authorization snapshot is present in refresh tokens. -/
theorem refresh_token_identity_only_amended
    (store : Store) (hasher : String → String → Bool) (settings : Settings)
    (now : Int) (email password : String) (tok : Token)
    (pair pair' : TokenPair)
    (hlogin : login store hasher settings now email password = Except.ok pair)
    (hrefresh : refresh_token store settings now tok = PyOutcome.ok pair') :
    pair.refresh_token.payload.roles = none ∧
    pair.refresh_token.payload.permissions = none ∧
    pair'.refresh_token.payload.roles = none ∧
    pair'.refresh_token.payload.permissions = none := by
  have hpair : pair.refresh_token.payload.roles = none ∧
      pair.refresh_token.payload.permissions = none := by
    unfold login at hlogin
    split at hlogin
    · cases hlogin
    · injection hlogin with h
      subst h
      exact ⟨rfl, rfl⟩
  have hpair2 : pair'.refresh_token.payload.roles = none ∧
      pair'.refresh_token.payload.permissions = none := by
    unfold refresh_token at hrefresh
    split at hrefresh
    · cases hrefresh
    · split at hrefresh
      · cases hrefresh
      · split at hrefresh
        · cases hrefresh
        · split at hrefresh
          · cases hrefresh
          · split at hrefresh
            · cases hrefresh
            · injection hrefresh with h
              subst h
              exact ⟨rfl, rfl⟩
  exact ⟨hpair.1, hpair.2, hpair2.1, hpair2.2⟩

/-- Witness for the amended C3: concrete login and refresh calls. -/
theorem refresh_token_identity_only_amended_witness :
    suPair.refresh_token.payload.roles = none ∧
    suPair.refresh_token.payload.permissions = none ∧
    suPair.refresh_token.payload.roles = none ∧
    suPair.refresh_token.payload.permissions = none :=
  refresh_token_identity_only_amended suStore suHasher exSettings 0
    "root@x" "pw" suPair.refresh_token suPair suPair rfl (by decide)

/-! ## C6: enumeration resistance of login -/

/-- C6: login with an unknown email, login with a wrong password for an
existing active account, and login against an inactive / non-active-status
account all return the identical `invalidCredentialsError`. -/
theorem login_enumeration_resistance (store : Store)
    (hasher : String → String → Bool) (settings : Settings) (now : Int)
    (email1 pw1 email2 pw2 email3 pw3 : String) (u2 u3 : User)
    (h1 : store.findByEmail email1 = none)
    (h2 : store.findByEmail email2 = some u2)
    (h2a : u2.is_active = true) (h2s : u2.status = UserStatus.active)
    (h2p : hasher pw2 u2.hashed_password = false)
    (h3 : store.findByEmail email3 = some u3)
    (h3d : u3.is_active = false ∨ u3.status ≠ UserStatus.active) :
    login store hasher settings now email1 pw1
        = Except.error invalidCredentialsError ∧
    login store hasher settings now email2 pw2
        = Except.error invalidCredentialsError ∧
    login store hasher settings now email3 pw3
        = Except.error invalidCredentialsError := by
  refine ⟨?_, ?_, ?_⟩
  · simp [login, authenticate_user, h1]
  · simp [login, authenticate_user, h2, h2a, h2s, h2p]
  · rcases h3d with h | h
    · simp [login, authenticate_user, h3, h]
    · cases hact : u3.is_active with
      | false => simp [login, authenticate_user, h3, hact]
      | true => simp [login, authenticate_user, h3, hact, h]

/-- An existing, active account with password hash checked by `enumHasher`. -/
def enumUser2 : User := ⟨2, "b@x", true, false, UserStatus.active, "h2"⟩

/-- An existing but deactivated account. -/
def enumUser3 : User := ⟨3, "c@x", false, false, UserStatus.inactive, "h3"⟩

/-- A store holding exactly `enumUser2` and `enumUser3` by email. -/
def enumStore : Store :=
  ⟨fun e =>
      if e == "b@x" then some enumUser2
      else if e == "c@x" then some enumUser3
      else none,
   fun _ => none, fun _ => [], fun _ => []⟩

/-- A stand-in hasher that accepts exactly the password "right". -/
def enumHasher : String → String → Bool := fun p _ => p == "right"

/-- Witness for C6: the three concrete login calls. -/
theorem login_enumeration_resistance_witness :
    login enumStore enumHasher exSettings 0 "a@x" "pw"
        = Except.error invalidCredentialsError ∧
    login enumStore enumHasher exSettings 0 "b@x" "wrong"
        = Except.error invalidCredentialsError ∧
    login enumStore enumHasher exSettings 0 "c@x" "right"
        = Except.error invalidCredentialsError :=
  login_enumeration_resistance enumStore enumHasher exSettings 0
    "a@x" "pw" "b@x" "wrong" "c@x" "right" enumUser2 enumUser3
    (by decide) (by decide) rfl rfl (by decide) (by decide) (Or.inl rfl)

/-! ## C7: snapshot freshness on refresh -/

/-- C7: a successful refresh returns exactly the pair minted by
create_user_tokens from the user re-fetched now, and the new access token's
extracted roles and permissions are the ones currently resolved from the
store — hence different from any previously embedded snapshot that has since
changed. -/
theorem refresh_snapshot_freshness (store : Store) (settings : Settings)
    (now : Int) (tok : Token) (payload : Payload) (s : String) (uid : Int)
    (user : User)
    (hv : verify_token tok settings.secret_key now "refresh" = some payload)
    (hs : payload.sub = some s)
    (hi : pyInt s = some uid)
    (hfind : store.findById uid = some user)
    (hact : user.is_active = true) :
    refresh_token store settings now tok
        = PyOutcome.ok (create_user_tokens store user settings now) ∧
    extract_user_roles
        (create_user_tokens store user settings now).access_token.payload
      = (store.rolesFor user.id).map Role.name ∧
    extract_user_permissions
        (create_user_tokens store user settings now).access_token.payload
      = (store.permsFor user.id).map
          (fun perm => PermissionEntry.mk perm.resource perm.action) ∧
    ∀ oldRoles : List String,
      oldRoles ≠ (store.rolesFor user.id).map Role.name →
      extract_user_roles
          (create_user_tokens store user settings now).access_token.payload
        ≠ oldRoles := by
  have h2 : extract_user_roles
      (create_user_tokens store user settings now).access_token.payload
      = (store.rolesFor user.id).map Role.name :=
    extract_roles_of_create_access _ _ _ _ _ _
  refine ⟨?_, h2, extract_perms_of_create_access _ _ _ _ _ _, ?_⟩
  · simp only [refresh_token, hv, hs, hi, hfind]
    rw [hact]
    simp
  · intro oldRoles hne
    rw [h2]
    exact Ne.symm hne

/-- The user whose roles changed to `editor` / `(doc, write)` by refresh
time. -/
def freshUser : User := ⟨5, "u@x", true, false, UserStatus.active, "h"⟩

/-- The store as of refresh time: it now resolves role `editor` and
permission `(doc, write)` for `freshUser`. -/
def freshStore : Store :=
  ⟨fun _ => none,
   fun i => if i == 5 then some freshUser else none,
   fun _ => [⟨10, "editor"⟩],
   fun _ => [⟨20, "doc:write", "doc", "write"⟩]⟩

/-- A still-valid refresh token for `freshUser`, issued before the change. -/
def freshRefreshTok : Token :=
  ⟨⟨some "5", "u@x", false, none, none, 604800, "refresh"⟩, "k"⟩

/-- Witness for C7: the concrete refresh embeds the new snapshot and not the
old role list `["viewer"]`. -/
theorem refresh_snapshot_freshness_witness :
    refresh_token freshStore exSettings 0 freshRefreshTok
        = PyOutcome.ok (create_user_tokens freshStore freshUser exSettings 0) ∧
    extract_user_roles
        (create_user_tokens freshStore freshUser exSettings
          0).access_token.payload
      = (freshStore.rolesFor freshUser.id).map Role.name ∧
    extract_user_permissions
        (create_user_tokens freshStore freshUser exSettings
          0).access_token.payload
      = (freshStore.permsFor freshUser.id).map
          (fun perm => PermissionEntry.mk perm.resource perm.action) ∧
    extract_user_roles
        (create_user_tokens freshStore freshUser exSettings
          0).access_token.payload
      ≠ ["viewer"] := by
  obtain ⟨a, b, c, d⟩ := refresh_snapshot_freshness freshStore exSettings 0
    freshRefreshTok freshRefreshTok.payload "5" 5 freshUser
    (by decide) rfl (by decide) (by decide) rfl
  exact ⟨a, b, c, d ["viewer"] (by decide)⟩

/-! ## C8: self-or-permission -/

/-- C8: require_self_or_permission passes iff the principal's (DB) id equals
the target user id or the single-permission check
(user_has_permission_in_token: superuser or pair present) passes; in every
other case it fails with exactly the Forbidden error of the single-permission
check. -/
theorem require_self_or_permission_correct (resource action : String)
    (target_user_id : Int) (current_user : TokenUser) :
    (require_self_or_permission resource action target_user_id current_user
        = Except.ok current_user ↔
      (current_user.user.id = target_user_id ∨
        user_has_permission_in_token current_user.token_payload resource action
          = true)) ∧
    (require_self_or_permission resource action target_user_id current_user
        = Except.ok current_user ∨
      require_self_or_permission resource action target_user_id current_user
        = Except.error (forbiddenPermission resource action)) := by
  by_cases hid : current_user.user.id = target_user_id
  · simp [require_self_or_permission, hid]
  · by_cases hp : user_has_permission_in_token current_user.token_payload
        resource action = true
    · simp [require_self_or_permission, hid, hp]
    · simp only [Bool.not_eq_true] at hp
      simp [require_self_or_permission, hid, hp]

/-! ## C9: disabled account on authenticate -/

/-- C9: when the access token decodes, the subject parses and its account
exists but is inactive or not in the active state, get_current_user returns
the AccountDisabled error (400, distinct from both 401 errors) and never a
principal. -/
theorem account_disabled_on_inactive (store : Store) (settings : Settings)
    (now : Int) (token : Token) (payload : Payload) (s : String) (uid : Int)
    (user : User)
    (hv : verify_token token settings.secret_key now "access" = some payload)
    (hs : payload.sub = some s)
    (hi : pyInt s = some uid)
    (hfind : store.findById uid = some user)
    (hdis : user.is_active = false ∨ user.status ≠ UserStatus.active) :
    get_current_user store settings now token
        = PyOutcome.httpError inactiveAccountError ∧
    inactiveAccountError ≠ credentialsError ∧
    inactiveAccountError ≠ userNotFoundError ∧
    ∀ cu : TokenUser,
      get_current_user store settings now token ≠ PyOutcome.ok cu := by
  have h1 : get_current_user store settings now token
      = PyOutcome.httpError inactiveAccountError := by
    simp only [get_current_user, hv, hs, hi, hfind]
    rw [if_pos hdis]
  refine ⟨h1, by decide, by decide, ?_⟩
  intro cu
  rw [h1]
  simp

/-- A suspended account row. -/
def disUser : User := ⟨6, "d@x", false, false, UserStatus.suspended, "h"⟩

/-- A store holding only the suspended account. -/
def disStore : Store :=
  ⟨fun _ => none, fun i => if i == 6 then some disUser else none,
   fun _ => [], fun _ => []⟩

/-- A still-unexpired, correctly signed access token for the suspended
account. -/
def disToken : Token :=
  ⟨⟨some "6", "d@x", false, none, none, 1000, "access"⟩, "k"⟩

/-- Witness for C9 at the suspended account. -/
theorem account_disabled_on_inactive_witness :
    get_current_user disStore exSettings 0 disToken
        = PyOutcome.httpError inactiveAccountError ∧
    inactiveAccountError ≠ credentialsError ∧
    inactiveAccountError ≠ userNotFoundError ∧
    get_current_user disStore exSettings 0 disToken
        ≠ PyOutcome.ok ⟨disUser, disToken.payload⟩ := by
  obtain ⟨a, b, c, d⟩ := account_disabled_on_inactive disStore exSettings 0
    disToken disToken.payload "6" 6 disUser (by decide) rfl (by decide)
    (by decide) (Or.inl rfl)
  exact ⟨a, b, c, d _⟩

/-! ## C10: non-numeric subject escapes as an uncaught exception -/

/-- A correctly signed, unexpired access token whose sub is not a decimal
integer. -/
def badSubToken : Token :=
  ⟨⟨some "abc", "e@x", false, none, none, 1000, "access"⟩, "k"⟩

/-- The analogous refresh token. -/
def badSubRefresh : Token :=
  ⟨⟨some "abc", "e@x", false, none, none, 1000, "refresh"⟩, "k"⟩

/-- An access token with no sub claim at all, for contrast. -/
def noSubToken : Token :=
  ⟨⟨none, "e@x", false, none, none, 1000, "access"⟩, "k"⟩

/-- A store with no records (never reached on these paths). -/
def emptyStore : Store :=
  ⟨fun _ => none, fun _ => none, fun _ => [], fun _ => []⟩

/-- C10: both tokens verify (correct signature, unexpired, expected kind),
yet `int("abc")` fails, so get_current_user and refresh end in the uncaught
ValueError outcome instead of an HTTP error — while a *missing* sub does take
the guarded 401 branch. -/
theorem nonnumeric_sub_uncaught_value_error :
    verify_token badSubToken exSettings.secret_key 0 "access"
        = some badSubToken.payload ∧
    verify_token badSubRefresh exSettings.secret_key 0 "refresh"
        = some badSubRefresh.payload ∧
    pyInt "abc" = none ∧
    get_current_user emptyStore exSettings 0 badSubToken
        = PyOutcome.valueError "abc" ∧
    refresh_token emptyStore exSettings 0 badSubRefresh
        = PyOutcome.valueError "abc" ∧
    get_current_user emptyStore exSettings 0 noSubToken
        = PyOutcome.httpError credentialsError := by
  refine ⟨rfl, rfl, by decide, by decide, by decide, by decide⟩

end FastAuth
